import Mathlib

/-!
Verification of the TheLook query-pipeline orchestrator.

Shallow embedding of the Python sources:
  * src/agents/nodes.py            (validate_sql, execute_query, _recover_from_error,
                                    analyze_results, create_visualization)
  * src/agents/specialized_agents.py (route_to_agent)
  * src/services/cache_service.py  (CacheService)
  * src/prompts/sql_generation.py  (get_error_recovery_prompt)
  * src/prompts/insight_generation.py (get_insight_generation_prompt,
                                    get_simple_insight_template)

Conventions:
  * Python strings are Lean `String`s; helpers below model the ASCII behaviour
    of `str.upper`, `str.lower`, `str.strip`, `str.split`, the `in` substring
    operator and the regex word-boundary patterns used by the source.  All
    inputs handled by the program are ASCII SQL/English text.
  * External collaborators (BigQuery execution, the LLM, schema context,
    result formatting, the visualization service) are fields of an `Env`
    record; fallible Python calls are `Except String` values, where
    `.error e` models a raised exception with message `e`.
  * Wall-clock time is an explicit `Nat` parameter (`datetime.now` instants).
-/

namespace TheLook

/-! ## ASCII string helpers mirroring the Python primitives -/

/-- Whitespace characters recognised by Python's `str.split()` / `str.strip()`
(ASCII subset: space, tab, newline, carriage return, vertical tab, form feed). -/
def isWsPy (c : Char) : Bool :=
  c = ' ' || c = '\t' || c = '\n' || c = '\r' || c = '\x0b' || c = '\x0c'

/-- ASCII uppercasing of one character, as Python `str.upper` acts on ASCII text. -/
def pyUpperChar (c : Char) : Char :=
  match c with
  | 'a' => 'A' | 'b' => 'B' | 'c' => 'C' | 'd' => 'D' | 'e' => 'E' | 'f' => 'F'
  | 'g' => 'G' | 'h' => 'H' | 'i' => 'I' | 'j' => 'J' | 'k' => 'K' | 'l' => 'L'
  | 'm' => 'M' | 'n' => 'N' | 'o' => 'O' | 'p' => 'P' | 'q' => 'Q' | 'r' => 'R'
  | 's' => 'S' | 't' => 'T' | 'u' => 'U' | 'v' => 'V' | 'w' => 'W' | 'x' => 'X'
  | 'y' => 'Y' | 'z' => 'Z'
  | other => other

/-- ASCII lowercasing of one character, as Python `str.lower` acts on ASCII text. -/
def pyLowerChar (c : Char) : Char :=
  match c with
  | 'A' => 'a' | 'B' => 'b' | 'C' => 'c' | 'D' => 'd' | 'E' => 'e' | 'F' => 'f'
  | 'G' => 'g' | 'H' => 'h' | 'I' => 'i' | 'J' => 'j' | 'K' => 'k' | 'L' => 'l'
  | 'M' => 'm' | 'N' => 'n' | 'O' => 'o' | 'P' => 'p' | 'Q' => 'q' | 'R' => 'r'
  | 'S' => 's' | 'T' => 't' | 'U' => 'u' | 'V' => 'v' | 'W' => 'w' | 'X' => 'x'
  | 'Y' => 'y' | 'Z' => 'z'
  | other => other

/-- Python `s.upper()`. -/
def pyUpper (s : String) : String := String.mk (s.data.map pyUpperChar)

/-- Python `s.lower()`. -/
def pyLower (s : String) : String := String.mk (s.data.map pyLowerChar)

/-- `leads p l` is true when `p` is an initial segment of `l`
(Python startswith / the anchored part of a regex literal match). -/
def leads : List Char → List Char → Bool
  | [], _ => true
  | _ :: _, [] => false
  | a :: as, b :: bs => a = b && leads as bs

/-- `infixHit p l`: some contiguous segment of `l` equals `p`
(Python's substring operator `pat in s`). -/
def infixHit (p : List Char) : List Char → Bool
  | [] => leads p []
  | c :: rest => leads p (c :: rest) || infixHit p rest

/-- Python `pat in s` on strings. -/
def strContains (s pat : String) : Bool := infixHit pat.data s.data

/-- Python `s.strip()` on a character list (ASCII whitespace). -/
def pyStripL (l : List Char) : List Char :=
  ((l.dropWhile isWsPy).reverse.dropWhile isWsPy).reverse

/-- Python `s.strip()`. -/
def pyStrip (s : String) : String := String.mk (pyStripL s.data)

/-- Splitter of Python `str.split()` (split on whitespace runs, drop empties).
`acc` holds the current word, reversed. -/
def splitWsGo (acc : List Char) : List Char → List (List Char)
  | [] => if acc.isEmpty then [] else [acc.reverse]
  | c :: rest =>
    if isWsPy c then
      if acc.isEmpty then splitWsGo [] rest else acc.reverse :: splitWsGo [] rest
    else splitWsGo (c :: acc) rest

/-- Python `s.split()` (no argument: split on whitespace runs). -/
def splitWs (l : List Char) : List (List Char) := splitWsGo [] l

/-- Python `" ".join(ws)`. -/
def joinSpace : List (List Char) → List Char
  | [] => []
  | [w] => w
  | w :: ws => w ++ ' ' :: joinSpace ws

/-- A regex word character (`\w` over the ASCII inputs the program handles). -/
def isWordChar (c : Char) : Bool := c.isAlpha || c.isDigit || c = '_'

/-- Whether position starts at a `\b` boundary given the preceding character. -/
def boundaryBefore : Option Char → Bool
  | none => true
  | some c => !isWordChar c

/-- The keyword `kw` matches here as a whole word: it is an initial segment and
the character right after it (if any) is not a word character. -/
def wordAt (kw s : List Char) : Bool :=
  leads kw s &&
    (match s.drop kw.length with
     | [] => true
     | c :: _ => !isWordChar c)

/-- Scanner for `re.search(r'\bKW\b', s)`: `prev` is the character before the
current position (none at the start of the text). -/
def hasWordOccAux (kw : List Char) : Option Char → List Char → Bool
  | prev, [] => boundaryBefore prev && wordAt kw []
  | prev, c :: rest =>
    (boundaryBefore prev && wordAt kw (c :: rest)) || hasWordOccAux kw (some c) rest

/-- `re.search(r'\b' + kw + r'\b', s)` is a match (case-sensitive). -/
def hasWordOcc (kw : String) (s : String) : Bool := hasWordOccAux kw.data none s.data

/-- `re.search(r'\b' + kw + r'\b', s, re.IGNORECASE)` is a match.  Uppercasing
both sides preserves word characters and boundaries on ASCII text. -/
def hasWordOccIC (kw : String) (s : String) : Bool :=
  hasWordOccAux (kw.data.map pyUpperChar) none (s.data.map pyUpperChar)

/-- Case-insensitive whole-word lookahead for the `DATEDIFF` substitution:
the 8-character keyword matches at the head of `s` (up to case) and the next
character is not a word character. -/
def dateDiffAt (s : List Char) : Bool :=
  leads ("DATEDIFF".data) (s.map pyUpperChar) &&
    (match s.drop 8 with
     | [] => true
     | c :: _ => !isWordChar c)

/-- One scan of `re.sub(r'\bDATEDIFF\b', 'DATE_DIFF', s, flags=re.IGNORECASE)`.
`fuel` only drives structural recursion; every step consumes at least one
character and one unit of fuel, so `fuel = s.length` never runs out. -/
def subDateDiffAux : Nat → Option Char → List Char → List Char
  | 0, _, s => s
  | _ + 1, _, [] => []
  | fuel + 1, prev, c :: rest =>
    if boundaryBefore prev && dateDiffAt (c :: rest) then
      "DATE_DIFF".data ++
        subDateDiffAux fuel (some (((c :: rest).take 8).getLastD c)) ((c :: rest).drop 8)
    else
      c :: subDateDiffAux fuel (some c) rest

/-- `re.sub(r'\bDATEDIFF\b', 'DATE_DIFF', s, flags=re.IGNORECASE)`. -/
def subDateDiff (s : String) : String :=
  String.mk (subDateDiffAux s.data.length none s.data)

/-- The markdown code-fence cleanup applied to LLM output before treating it
as SQL (nodes.py `_recover_from_error`, identical in the specialized agents):
strip, drop a leading three-backtick-sql / three-backtick fence, drop a
trailing three-backtick fence, strip again. -/
def cleanSqlFences (txt : String) : String :=
  let s := pyStripL txt.data
  let s :=
    if leads ("```sql".data) s then s.drop 6
    else if leads ("```".data) s then s.drop 3
    else s
  let s := if leads ("```".data.reverse) s.reverse then s.take (s.length - 3) else s
  String.mk (pyStripL s)

/-! ## Data model

`DataFrame` stands for the pandas result tables: column names plus rows of
cell texts; the pipeline only ever reads row/column counts and value
equality, so this representation is faithful for every property below. -/

structure DataFrame where
  cols : List String
  rows : List (List String)
deriving DecidableEq, Repr

/-- The `query_metadata` dict built by `understand_query` (nodes.py): keys
`type`, `complexity`, `original_query`. -/
structure QueryMetadata where
  qtype : String
  complexity : String
  original_query : String
deriving DecidableEq, Repr

/-- A visualization spec descriptor (opaque to the orchestrator). -/
abbrev VizSpec := String

/-- The `AgentState` dict of src/agents/state.py as threaded through the
nodes.  Absent dict keys are `none` / `[]` / `0`, matching the
`state.get(key, default)` reads in the source. -/
structure AgentState where
  query : String
  query_metadata : Option QueryMetadata := none
  sql_query : Option String := none
  query_result : Option DataFrame := none
  error : Option String := none
  previous_errors : List String := []
  retry_count : Nat := 0
  insights : Option String := none
  visualization_spec : Option VizSpec := none
deriving DecidableEq, Repr

/-- The LLM collaborator (`LLMService`): `generate_text(prompt)` returns text
or raises (modelled as `.error msg`). -/
structure LLMService where
  generate_text : String → Except String String

/-- The collaborators reachable from the nodes: BigQuery execution (with the
configured row limit folded in), the optional LLM service (`None` when the
API key is missing), the schema-context builder (argument = include_examples),
the result formatter `format_query_result(df, max_rows=10)`, and the
visualization service (which may return no spec or raise). -/
structure Env where
  bq_execute : String → Except String DataFrame
  llm : Option LLMService
  schema_context : Bool → String
  format_result : DataFrame → String
  viz : DataFrame → Option String → String → Except String (Option VizSpec)

/-! ## Prompt builders (src/prompts) -/

/-- `get_error_recovery_prompt` from src/prompts/sql_generation.py. -/
def get_error_recovery_prompt (user_query failed_query error_message schema_context : String) :
    String :=
  "You are a SQL expert. A previous SQL query failed with an error. Please generate a corrected query.\n\nORIGINAL USER QUESTION: "
    ++ user_query
    ++ "\n\nFAILED QUERY:\n" ++ failed_query
    ++ "\n\nERROR MESSAGE:\n" ++ error_message
    ++ "\n\n" ++ schema_context
    ++ "\n\nINSTRUCTIONS:\n1. Analyze the error message to understand what went wrong\n2. Common issues:\n   - Column name typos or incorrect table references\n   - Missing JOIN conditions\n   - Data type mismatches in WHERE clauses\n   - Missing table aliases\n   - Incorrect aggregate function usage\n3. Generate a corrected SQL query that fixes the error\n4. Ensure the query still answers the original user question\n\nReturn ONLY the corrected SQL query, no explanations.\n"

/-- `get_insight_generation_prompt` from src/prompts/insight_generation.py. -/
def get_insight_generation_prompt (user_query query_result_summary : String)
    (query_type : Option String) : String :=
  let base :=
    "You are a business analyst. Analyze the following query results and provide actionable business insights.\n\nUSER\x27S QUESTION: "
      ++ user_query
      ++ "\n\nQUERY RESULTS:\n" ++ query_result_summary
      ++ "\n\nINSTRUCTIONS:\n- Provide 2-3 key business insights based on this data\n- Be specific and use numbers from the results\n- Make insights actionable (what should the business do?)\n- If the results show trends, explain what they mean\n- Highlight any surprising or important findings\n\nFORMAT:\n- Use bullet points for clarity\n- Start each insight with a bold heading\n- Include specific numbers and percentages where relevant\n"
  match query_type with
  | some "count" =>
    base ++ "\n- Focus on the scale and magnitude of the count\n- Compare to expectations if relevant"
  | some "ranking" =>
    base ++ "\n- Highlight top performers and their characteristics\n- Identify patterns in the ranking"
  | some "aggregation" =>
    base ++ "\n- Explain what the average/aggregate means in business context\n- Compare to benchmarks if possible"
  | some "temporal" =>
    base ++ "\n- Identify trends over time\n- Highlight growth, decline, or seasonal patterns"
  | some "customer_analysis" =>
    base ++ "\n- Focus on customer behavior and segmentation\n- Provide recommendations for customer engagement"
  | some "product_analysis" =>
    base ++ "\n- Identify product performance patterns\n- Suggest product strategy recommendations"
  | some "sales_analysis" =>
    base ++ "\n- Analyze revenue patterns\n- Provide sales strategy recommendations"
  | _ => base

/-- `get_simple_insight_template` from src/prompts/insight_generation.py:
`templates.get(query_type, templates["default"])`. -/
def get_simple_insight_template (query_type : Option String) : String :=
  match query_type with
  | some "count" =>
    "The query returned {count} records. This represents the total number of {entity} in the dataset."
  | some "ranking" =>
    "The top {n} items are shown. The leading item has {value} {metric}."
  | some "aggregation" =>
    "The average value is {avg}. This indicates {interpretation}."
  | _ =>
    "Query returned {rows} rows with {cols} columns. Review the data for specific insights."

/-- Python `template.format(**vars)` restricted to the placeholder shapes that
occur in the insight templates (plain `\x7bname\x7d` fields, no escapes):
substitutes each named field, raising KeyError (`.error`) for a field with no
supplied value and ValueError for an unmatched brace.  `fuel = tmpl.length`
drives structural recursion and never runs out. -/
def pyFormatAux (vars : List (String × String)) : Nat → List Char → Except String (List Char)
  | 0, l => .ok l
  | _ + 1, [] => .ok []
  | fuel + 1, c :: rest =>
    if c = '\x7b' then
      let name := rest.takeWhile (fun d => d ≠ '\x7d')
      match rest.dropWhile (fun d => d ≠ '\x7d') with
      | [] => .error "ValueError: expected \x7d before end of string"
      | _ :: after =>
        match (vars.find? (fun p => p.1 = String.mk name)).map (fun p => p.2) with
        | some v => (pyFormatAux vars fuel after).map (fun t => v.data ++ t)
        | none => .error ("KeyError: " ++ String.mk name)
    else if c = '\x7d' then
      .error "ValueError: single \x7d encountered"
    else
      (pyFormatAux vars fuel rest).map (fun t => c :: t)

/-- Python `template.format(...)` with keyword arguments. -/
def pyFormat (tmpl : String) (vars : List (String × String)) : Except String String :=
  (pyFormatAux vars tmpl.data.length tmpl.data).map String.mk

/-! ## Pipeline nodes (src/agents/nodes.py) -/

/-- The forbidden-keyword list of `validate_sql`, in source order. -/
def forbidden_keywords : List String :=
  ["DROP", "DELETE", "INSERT", "UPDATE", "ALTER", "CREATE", "TRUNCATE"]

/-- The forbidden-keyword loop of `validate_sql`: the first keyword whose
word-boundary pattern matches the raw SQL text.  The source searches the
original `sql` (not the computed-but-unused `sql_upper`) and compiles each
pattern without `re.IGNORECASE`, so the scan is case-sensitive. -/
def findForbidden (sql : String) : Option String :=
  forbidden_keywords.find? (fun kw => hasWordOcc kw sql)

/-- Node 6.3 `validate_sql`.  The dataset-reference check and the
`DATEDIFF` advisory check in the source only build local warning data and
never modify the state, so they have no observable effect here. -/
def validate_sql (st : AgentState) : AgentState :=
  if st.error.isSome then st
  else
    let sql := st.sql_query.getD ""
    match findForbidden sql with
    | some kw => { st with error := some ("Query contains forbidden operation: " ++ kw) }
    | none =>
      if !strContains sql "SELECT" then
        { st with error := some "Query must be a SELECT statement" }
      else st

/-- The Fix 1 trigger in `_recover_from_error`:
`"DATEDIFF" in error_msg.upper() or re.search(r'\bDATEDIFF\b', failed_sql, re.IGNORECASE)`. -/
def fix1Cond (error_msg failed_sql : String) : Bool :=
  strContains (pyUpper error_msg) "DATEDIFF" || hasWordOccIC "DATEDIFF" failed_sql

/-- The Fix 2 trigger:
`("TIMESTAMP" in error_msg and "DATE" in error_msg) or "DATE_DIFF does not support" in error_msg`. -/
def fix2Cond (error_msg : String) : Bool :=
  (strContains error_msg "TIMESTAMP" && strContains error_msg "DATE") ||
    strContains error_msg "DATE_DIFF does not support"

/-- The Fix 3 trigger:
`"not found" in error_msg.lower() or "column" in error_msg.lower()`. -/
def fix3Cond (error_msg : String) : Bool :=
  strContains (pyLower error_msg) "not found" || strContains (pyLower error_msg) "column"

/-- `_recover_from_error` (nodes.py).  The schema service is always
constructed in `_get_services`, so `if llm_service and schema_service`
reduces to whether the LLM service is available.  On an LLM exception the
source returns the state as it stands (previous error and failed SQL kept);
otherwise it installs the corrected SQL and clears the error. -/
def _recover_from_error (env : Env) (st : AgentState) (error_msg : String) : AgentState :=
  let failed_sql := st.sql_query.getD ""
  let user_query := st.query
  let st := { st with previous_errors := st.previous_errors ++ [error_msg] }
  let corrected_sql := failed_sql
  let corrected_sql :=
    if fix1Cond error_msg failed_sql then subDateDiff corrected_sql else corrected_sql
  if fix2Cond error_msg then
    match env.llm with
    | some llm =>
      match llm.generate_text
          (get_error_recovery_prompt user_query failed_sql error_msg
            (env.schema_context false)) with
      | .error _ => st
      | .ok txt => { st with sql_query := some (cleanSqlFences txt), error := none }
    | none => { st with sql_query := some corrected_sql, error := none }
  else if fix3Cond error_msg then
    match env.llm with
    | some llm =>
      match llm.generate_text
          (get_error_recovery_prompt user_query failed_sql error_msg
            (env.schema_context false)) with
      | .error _ => st
      | .ok txt => { st with sql_query := some (cleanSqlFences txt), error := none }
    | none => { st with sql_query := some corrected_sql, error := none }
  else
    { st with sql_query := some corrected_sql, error := none }

/-- `max_retries` in `execute_query` (nodes.py). -/
def MAX_RETRIES : Nat := 2

/-- Node 6.4 `execute_query`, including the bounded recursive retry.  On
failure the source sets the error, runs recovery if retries remain,
increments the retry counter, and re-enters itself. -/
def execute_query (env : Env) (st : AgentState) : AgentState :=
  if st.error.isSome then st
  else if st.retry_count ≥ MAX_RETRIES then st
  else
    match env.bq_execute (st.sql_query.getD "") with
    | .ok result => { st with query_result := some result, error := none, retry_count := 0 }
    | .error error_msg =>
      let st1 := { st with error := some ("Query execution failed: " ++ error_msg) }
      if h : st.retry_count < MAX_RETRIES then
        let st2 := _recover_from_error env st1 error_msg
        let st3 := { st2 with retry_count := st.retry_count + 1 }
        execute_query env st3
      else st1
termination_by MAX_RETRIES - st.retry_count
decreasing_by
  simp only [MAX_RETRIES] at h ⊢
  omega

/-- Node 6.5 `analyze_results`.  With no LLM available it formats the simple
template (whose `.format` call can itself raise on templates with unsupplied
fields); with an LLM it builds the insight prompt from the formatted result
summary and delegates.  Any exception is caught and recorded as
`Insight generation failed: ...` in the error field. -/
def analyze_results (env : Env) (st : AgentState) : AgentState :=
  if st.error.isSome || st.query_result.isNone then st
  else
    let df := st.query_result.getD ⟨[], []⟩
    let query_type := st.query_metadata.map (fun md => md.qtype)
    match env.llm with
    | none =>
      match pyFormat (get_simple_insight_template query_type)
          [("count", toString df.rows.length), ("rows", toString df.rows.length),
           ("cols", toString df.cols.length), ("entity", "items")] with
      | .ok text => { st with insights := some text }
      | .error e => { st with error := some ("Insight generation failed: " ++ e) }
    | some llm =>
      let result_summary := env.format_result df
      let insight_prompt := get_insight_generation_prompt st.query result_summary query_type
      match llm.generate_text insight_prompt with
      | .ok insights => { st with insights := some insights }
      | .error e => { st with error := some ("Insight generation failed: " ++ e) }

/-- Node 6.6 `create_visualization`.  Every exception from the visualization
service is caught and turned into an absent spec; the error field is never
touched. -/
def create_visualization (env : Env) (st : AgentState) : AgentState :=
  if st.error.isSome || st.query_result.isNone then st
  else
    let df := st.query_result.getD ⟨[], []⟩
    let query_type := st.query_metadata.map (fun md => md.qtype)
    match env.viz df query_type st.query with
    | .ok spec => { st with visualization_spec := spec }
    | .error _ => { st with visualization_spec := none }

/-! ## Router (src/agents/specialized_agents.py, `route_to_agent`) -/

def geo_keywords : List String :=
  ["geographic", "by location", "by state", "by country", "by region", "by city",
   "location", "state", "country", "region", "city"]

def customer_keywords : List String :=
  ["customer", "user", "segment", "demographic", "age", "gender"]

def product_keywords : List String :=
  ["product", "item", "catalog", "inventory", "category", "brand"]

def temporal_keywords : List String :=
  ["trend", "over time", "by month", "by year", "by day", "growth", "decline", "seasonal"]

def sales_keywords : List String := ["revenue", "sales", "income", "profit"]

/-- `any(kw in query for kw in kws)` on the lowercased query. -/
def anyKeyword (kws : List String) (query : String) : Bool :=
  kws.any (fun kw => strContains query kw)

/-- `route_to_agent` (specialized_agents.py).  `query_metadata` may be absent,
in which case the derived type defaults to `"general"`. -/
def route_to_agent (st : AgentState) : String :=
  let query := pyLower st.query
  let query_type :=
    match st.query_metadata with
    | some md => md.qtype
    | none => "general"
  if anyKeyword geo_keywords query then "geographic"
  else if anyKeyword customer_keywords query || query_type = "customer_analysis" then
    "customer_segmentation"
  else if anyKeyword product_keywords query || query_type = "product_analysis" then
    "product_performance"
  else if anyKeyword (temporal_keywords ++ sales_keywords) query
      || query_type = "temporal" || query_type = "sales_analysis" then
    "sales_trends"
  else "general"

/-! ## Result cache (src/services/cache_service.py)

Python DataFrames are aliased objects and `CacheService` copies them on both
`cache_result` and `get_cached_result`; to make that observable we model an
object heap: ids index into a store of `DataFrame` values, `copy` allocates a
fresh id holding the current value, and `mutate` overwrites the value at an
id.  The md5-of-sorted-JSON cache key is modelled by its (injective) pre-hash
key material: the normalized query together with the keyword parameters
(`limit_rows` at the single call site, generalized to a name/value list). -/

structure Heap where
  objs : List DataFrame
deriving DecidableEq, Repr

def Heap.valueAt (h : Heap) (i : Nat) : DataFrame := h.objs.getD i ⟨[], []⟩

/-- `df.copy()`: allocate a fresh object holding the current value of `i`. -/
def Heap.copy (h : Heap) (i : Nat) : Heap × Nat :=
  (⟨h.objs ++ [h.valueAt i]⟩, h.objs.length)

/-- In-place mutation of the object at `i`. -/
def Heap.mutate (h : Heap) (i : Nat) (f : DataFrame → DataFrame) : Heap :=
  ⟨h.objs.set i (f (h.valueAt i))⟩

/-- Cache-key keyword parameters (`**kwargs`), e.g. `limit_rows=10000`. -/
abbrev CacheParams := List (String × Nat)

abbrev CacheKey := String × CacheParams

/-- One `_query_cache` entry: the stored result is a heap id (the copy made
at insertion time). -/
structure CacheEntry where
  result : Nat
  expires_at : Nat
  cached_at : Nat
  query : String
deriving DecidableEq, Repr

/-- `CacheService`: the dict is an association list with dict semantics via
the helpers below. -/
structure CacheService where
  query_cache : List (CacheKey × CacheEntry)
  ttl_seconds : Nat
deriving DecidableEq, Repr

/-- Dict read: first binding of the key (a dict built by `dictSet` holds at
most one). -/
def dictGet (m : List (CacheKey × CacheEntry)) (k : CacheKey) : Option CacheEntry :=
  (m.find? (fun p => p.1 = k)).map (fun p => p.2)

/-- Dict write `m[k] = v`: overwrite an existing binding, else append. -/
def dictSet (m : List (CacheKey × CacheEntry)) (k : CacheKey) (v : CacheEntry) :
    List (CacheKey × CacheEntry) :=
  if m.any (fun p => p.1 = k) then
    m.map (fun p => if p.1 = k then (k, v) else p)
  else m ++ [(k, v)]

/-- Dict delete `del m[k]`. -/
def dictDel (m : List (CacheKey × CacheEntry)) (k : CacheKey) :
    List (CacheKey × CacheEntry) :=
  m.filter (fun p => p.1 ≠ k)

/-- The query normalization inside `_generate_cache_key`:
`" ".join(query.upper().split())`. -/
def normalizeQuery (query : String) : String :=
  String.mk (joinSpace (splitWs (query.data.map pyUpperChar)))

/-- `_generate_cache_key(query, **kwargs)` up to the injective md5/JSON
serialization (see the section comment). -/
def _generate_cache_key (query : String) (kwargs : CacheParams) : CacheKey :=
  (normalizeQuery query, kwargs)

/-- `get_cached_result`: miss on an unknown key; lazy deletion plus miss once
`now > expires_at`; otherwise hand back a fresh copy of the stored table. -/
def get_cached_result (c : CacheService) (h : Heap) (now : Nat) (query : String)
    (kwargs : CacheParams) : Option Nat × CacheService × Heap :=
  let cache_key := _generate_cache_key query kwargs
  match dictGet c.query_cache cache_key with
  | none => (none, c, h)
  | some cached_item =>
    if now > cached_item.expires_at then
      (none, { c with query_cache := dictDel c.query_cache cache_key }, h)
    else
      let (h2, rid) := h.copy cached_item.result
      (some rid, c, h2)

/-- `cache_result`: store a copy of the result under the derived key with
`expires_at = now + ttl_seconds`. -/
def cache_result (c : CacheService) (h : Heap) (now : Nat) (query : String)
    (result : Nat) (kwargs : CacheParams) : CacheService × Heap :=
  let cache_key := _generate_cache_key query kwargs
  let (h2, sid) := h.copy result
  let entry : CacheEntry := ⟨sid, now + c.ttl_seconds, now, query⟩
  ({ c with query_cache := dictSet c.query_cache cache_key entry }, h2)

/-- `get_cache_stats`: `(total_entries, valid_entries, expired_entries)` with
`valid = #\x7bexpires_at > now\x7d` and `expired = total - valid`. -/
def get_cache_stats (c : CacheService) (now : Nat) : Nat × Nat × Nat :=
  let total := c.query_cache.length
  let valid := (c.query_cache.filter (fun p => p.2.expires_at > now)).length
  (total, valid, total - valid)

/-! ## Helper lemmas: the recovery step -/

/-- When no LLM service is available, every branch of `_recover_from_error`
falls through to the pattern-level update: the error message is appended to
the history, the (possibly `DATEDIFF`-rewritten) failed SQL is reinstalled,
and the error is cleared. -/
theorem recover_llm_none (env : Env) (st : AgentState) (msg : String)
    (hl : env.llm = none) :
    _recover_from_error env st msg =
      { st with
          previous_errors := st.previous_errors ++ [msg],
          sql_query := some (if fix1Cond msg (st.sql_query.getD "") then
              subDateDiff (st.sql_query.getD "")
            else st.sql_query.getD ""),
          error := none } := by
  unfold _recover_from_error
  simp only [hl]
  split <;> (try split) <;> rfl

/-- `_recover_from_error` never touches the retry counter. -/
theorem recover_retry_count (env : Env) (st : AgentState) (msg : String) :
    (_recover_from_error env st msg).retry_count = st.retry_count := by
  unfold _recover_from_error
  dsimp only
  split <;> (try split) <;> (try split) <;> (try split) <;> rfl

/-- `_recover_from_error` never touches the query result. -/
theorem recover_query_result (env : Env) (st : AgentState) (msg : String) :
    (_recover_from_error env st msg).query_result = st.query_result := by
  unfold _recover_from_error
  dsimp only
  split <;> (try split) <;> (try split) <;> (try split) <;> rfl

/-- `_recover_from_error` appends exactly the one new error message to the
attempt history, in every branch. -/
theorem recover_previous_errors (env : Env) (st : AgentState) (msg : String) :
    (_recover_from_error env st msg).previous_errors =
      st.previous_errors ++ [msg] := by
  unfold _recover_from_error
  dsimp only
  split <;> (try split) <;> (try split) <;> (try split) <;> rfl

/-- When the error signature selects the delegated LLM path and the delegated
call raises, `_recover_from_error` returns the state unchanged apart from the
history append: the recorded error and the failed SQL survive. -/
theorem recover_giveup (env : Env) (st : AgentState) (msg e : String) (L : LLMService)
    (hc : fix2Cond msg = true ∨ fix3Cond msg = true)
    (hl : env.llm = some L)
    (hg : L.generate_text
        (get_error_recovery_prompt st.query (st.sql_query.getD "") msg
          (env.schema_context false)) = .error e) :
    _recover_from_error env st msg =
      { st with previous_errors := st.previous_errors ++ [msg] } := by
  unfold _recover_from_error
  simp only [hl]
  by_cases h2 : fix2Cond msg
  · simp only [h2, if_true, hg]
  · rcases hc with hc | hc
    · exact absurd hc h2
    · simp only [h2, if_false, hc, if_true, hg]
      split <;> rfl

/-! ## Helper lemmas: the execute node -/

/-- Short-circuit case of `execute_query`: an already-set error passes
through untouched. -/
theorem execute_query_on_error (env : Env) (st : AgentState)
    (he : st.error.isSome) : execute_query env st = st := by
  unfold execute_query
  simp [he]

/-- Exhausted case of `execute_query`: with no error but the retry counter at
the bound, the state passes through untouched (in particular no error is
installed). -/
theorem execute_query_maxed (env : Env) (st : AgentState)
    (he : st.error = none) (hr : MAX_RETRIES ≤ st.retry_count) :
    execute_query env st = st := by
  unfold execute_query
  simp [he, hr]

/-- Failing step of `execute_query`: with retries remaining and the
execution collaborator raising, the node records the error, runs recovery,
increments the retry counter and re-enters itself. -/
theorem execute_query_fail_step (env : Env) (st : AgentState) (msg : String)
    (he : st.error = none) (hr : st.retry_count < MAX_RETRIES)
    (hx : env.bq_execute (st.sql_query.getD "") = .error msg) :
    execute_query env st =
      execute_query env
        { _recover_from_error env
            { st with error := some ("Query execution failed: " ++ msg) } msg with
          retry_count := st.retry_count + 1 } := by
  conv_lhs => rw [execute_query]
  simp [he, Nat.not_le.mpr hr, hx, hr]

/-- Successful step of `execute_query`. -/
theorem execute_query_ok_step (env : Env) (st : AgentState) (result : DataFrame)
    (he : st.error = none) (hr : st.retry_count < MAX_RETRIES)
    (hx : env.bq_execute (st.sql_query.getD "") = .ok result) :
    execute_query env st =
      { st with query_result := some result, error := none, retry_count := 0 } := by
  conv_lhs => rw [execute_query]
  simp [he, Nat.not_le.mpr hr, hx]

/-- Normal form of one failing step when no LLM is available: the raw error
message is appended to the history, the (possibly pattern-rewritten) SQL is
reinstalled, the error is cleared and the retry counter is bumped before
re-entering the node. -/
theorem execute_query_fail_step_no_llm (env : Env) (st : AgentState) (msg : String)
    (hl : env.llm = none) (he : st.error = none) (hr : st.retry_count < MAX_RETRIES)
    (hx : env.bq_execute (st.sql_query.getD "") = .error msg) :
    execute_query env st =
      execute_query env
        { st with
            previous_errors := st.previous_errors ++ [msg],
            sql_query := some (if fix1Cond msg (st.sql_query.getD "") then
                subDateDiff (st.sql_query.getD "")
              else st.sql_query.getD ""),
            error := none,
            retry_count := st.retry_count + 1 } := by
  rw [execute_query_fail_step env st msg he hr hx,
    recover_llm_none env { st with error := some ("Query execution failed: " ++ msg) } msg hl]

/-- With an execution collaborator that raises on every statement and no LLM
service, `execute_query` performs exactly two recovery attempts (observable
as two appended history entries), stops with the retry counter at the bound,
leaves the query result untouched, and returns with the error field cleared
(the last recovery erased it). -/
theorem execute_query_all_fail_no_llm (env : Env) (st : AgentState) (m : String → String)
    (hl : env.llm = none) (hx : ∀ q, env.bq_execute q = .error (m q))
    (he : st.error = none) (hr : st.retry_count = 0) :
    (execute_query env st).error = none ∧
    (execute_query env st).query_result = st.query_result ∧
    (execute_query env st).retry_count = MAX_RETRIES ∧
    (execute_query env st).previous_errors.length = st.previous_errors.length + 2 := by
  rw [execute_query_fail_step_no_llm env st _ hl he (by simp [hr, MAX_RETRIES]) (hx _)]
  rw [execute_query_fail_step_no_llm env _ _ hl rfl (by simp [hr, MAX_RETRIES]) (hx _)]
  rw [execute_query_maxed env _ rfl (by simp [hr, MAX_RETRIES])]
  simp [hr, MAX_RETRIES]

/-- Attempt-count safety of the execute node, for any collaborators and any
starting state: the number of history entries added by `execute_query`
(one per recovery attempt) never exceeds the retries remaining under
`MAX_RETRIES`. -/
theorem execute_query_prev_bound (env : Env) (st : AgentState) :
    (execute_query env st).previous_errors.length ≤
      st.previous_errors.length + (MAX_RETRIES - st.retry_count) := by
  suffices h : ∀ n env st, MAX_RETRIES - AgentState.retry_count st ≤ n →
      (execute_query env st).previous_errors.length ≤
        st.previous_errors.length + (MAX_RETRIES - st.retry_count) from
    h (MAX_RETRIES - st.retry_count) env st le_rfl
  intro n
  induction n with
  | zero =>
    intro env st hn
    by_cases he : st.error.isSome
    · rw [execute_query_on_error env st he]
      omega
    · have he0 : st.error = none := Option.not_isSome_iff_eq_none.mp he
      rw [execute_query_maxed env st he0 (by omega)]
      omega
  | succ n ih =>
    intro env st hn
    by_cases he : st.error.isSome
    · rw [execute_query_on_error env st he]
      omega
    · have he0 : st.error = none := Option.not_isSome_iff_eq_none.mp he
      by_cases hr : MAX_RETRIES ≤ st.retry_count
      · rw [execute_query_maxed env st he0 hr]
        omega
      · have hrlt : st.retry_count < MAX_RETRIES := Nat.lt_of_not_le hr
        cases hx : env.bq_execute (st.sql_query.getD "") with
        | ok result =>
          rw [execute_query_ok_step env st result he0 hrlt hx]
          simp
        | error msg =>
          rw [execute_query_fail_step env st msg he0 hrlt hx]
          have h3prev :
              ({ _recover_from_error env
                  { st with error := some ("Query execution failed: " ++ msg) } msg with
                 retry_count := st.retry_count + 1 } : AgentState).previous_errors =
                st.previous_errors ++ [msg] :=
            recover_previous_errors env
              { st with error := some ("Query execution failed: " ++ msg) } msg
          have hstep := ih env
            { _recover_from_error env
                { st with error := some ("Query execution failed: " ++ msg) } msg with
              retry_count := st.retry_count + 1 } (by simp; omega)
          rw [h3prev] at hstep
          refine le_trans hstep ?_
          simp only [List.length_append, List.length_cons, List.length_nil]
          omega

/-! ## Helper lemmas: the best-effort stages -/

/-- `create_visualization` returns the error field of its input unchanged in
every branch (the visualization exception handler only clears the spec). -/
theorem create_visualization_error_eq (env : Env) (st : AgentState) :
    (create_visualization env st).error = st.error := by
  unfold create_visualization
  dsimp only
  split
  · rfl
  · split <;> rfl

/-- A raising text-generation collaborator inside `analyze_results` is caught
and recorded as an `Insight generation failed` error on the state. -/
theorem analyze_results_llm_failure (env : Env) (st : AgentState) (df : DataFrame)
    (L : LLMService) (e : String)
    (he : st.error = none) (hq : st.query_result = some df) (hl : env.llm = some L)
    (hg : L.generate_text
        (get_insight_generation_prompt st.query (env.format_result df)
          (st.query_metadata.map (fun md => md.qtype))) = .error e) :
    (analyze_results env st).error = some ("Insight generation failed: " ++ e) := by
  unfold analyze_results
  simp [he, hq, hl, hg]

/-! ## Fixed collaborator environments used to instantiate the theorems -/

/-- A trivial environment: execution succeeds with an empty table, no LLM. -/
def envTrivial : Env :=
  { bq_execute := fun _ => .ok ⟨[], []⟩
    llm := none
    schema_context := fun _ => "schema"
    format_result := fun _ => "rows"
    viz := fun _ _ _ => .ok none }

/-- An environment whose execution collaborator always raises `boom` (an
error message matching none of the recovery patterns) and that has no LLM. -/
def envExecBoom : Env :=
  { bq_execute := fun _ => .error "boom"
    llm := none
    schema_context := fun _ => "schema"
    format_result := fun _ => "rows"
    viz := fun _ _ _ => .ok none }

/-- An environment whose execution collaborator raises an unresolved-column
error and whose LLM raises on every prompt. -/
def envGiveUp : Env :=
  { bq_execute := fun _ => .error "column foo not found"
    llm := some ⟨fun _ => .error "llm down"⟩
    schema_context := fun _ => "schema"
    format_result := fun _ => "rows"
    viz := fun _ _ _ => .ok none }

/-- An environment whose execution succeeds but whose LLM raises on every
prompt (so insight generation fails). -/
def envInsightDown : Env :=
  { bq_execute := fun _ => .ok ⟨["c"], [["1"]]⟩
    llm := some ⟨fun _ => .error "llm down"⟩
    schema_context := fun _ => "schema"
    format_result := fun _ => "rows"
    viz := fun _ _ _ => .ok none }

/-! ## Claim C1 -/

/-- C1: the claim says the forbidden-keyword rejection is case-insensitive,
and the repo's own test docstring
(`test_validate_sql_case_insensitive_forbidden_keywords`, "catches forbidden
keywords in any case") and the computed-but-unused `sql_upper` variable show
that was the intent; but the compiled patterns search the raw SQL without
`re.IGNORECASE`, so `SELECT 1; drop table orders` — which contains `drop` as
a whole word and an uppercase `SELECT`, so the SELECT check cannot mask the
miss — passes validation with no error, while the same statement in upper
case is rejected.  The identifier half of the claim does hold: `UPDATE`
inside `UPDATE_COUNT` does not match, and such SQL is accepted. -/
theorem c1_forbidden_scan_case_sensitivity_bug :
    (validate_sql { query := "q", sql_query := some "SELECT 1; drop table orders" }).error
      = none ∧
    hasWordOccIC "DROP" "SELECT 1; drop table orders" = true ∧
    (validate_sql { query := "q", sql_query := some "SELECT 1; DROP TABLE orders" }).error
      = some "Query contains forbidden operation: DROP" ∧
    hasWordOcc "UPDATE" "SELECT UPDATE_COUNT FROM t" = false ∧
    (validate_sql { query := "q", sql_query := some "SELECT UPDATE_COUNT FROM t" }).error
      = none := by
  decide

/-! ## Claim C2 -/

/-- C2 counterexample: execution always raises `boom` (an error matching no
recovery pattern) with no LLM available; the orchestrator performs its two
recovery attempts, but the final state has the error field EMPTY (the last
recovery cleared it) and no query result — refuting the claim that the final
returned state always has its error field populated. -/
theorem c2_exhausted_retries_error_cleared_cex :
    (execute_query envExecBoom { query := "q", sql_query := some "SELECT 1" }).error = none ∧
    (execute_query envExecBoom { query := "q", sql_query := some "SELECT 1" }).query_result
      = none ∧
    (execute_query envExecBoom { query := "q", sql_query := some "SELECT 1" }).retry_count
      = MAX_RETRIES ∧
    (execute_query envExecBoom
        { query := "q", sql_query := some "SELECT 1" }).previous_errors.length = 2 := by
  have h := execute_query_all_fail_no_llm envExecBoom
    { query := "q", sql_query := some "SELECT 1" } (fun _ => "boom") rfl (fun _ => rfl) rfl rfl
  simpa using h

/-- C2 amended: for a request whose execution attempt fails on every try and
whose recovery always falls through to the pattern path (no LLM service), the
orchestrator performs exactly `MAX_RETRIES` (2) recovery attempts — observable
as exactly two new history entries — and then stops with `retry_count` at the
bound and no query result; but the final error field is EMPTY, because each
recovery attempt clears it (the error survives only when the final recovery
attempt itself gives up).  Moreover, for every environment and state, the node
never performs more recovery attempts than `MAX_RETRIES - retry_count`. -/
theorem c2_retry_bound_amended (env env2 : Env) (st st2 : AgentState) (m : String → String)
    (hl : env.llm = none) (hx : ∀ q, env.bq_execute q = .error (m q))
    (he : st.error = none) (hr : st.retry_count = 0) :
    ((execute_query env st).error = none ∧
     (execute_query env st).query_result = st.query_result ∧
     (execute_query env st).retry_count = MAX_RETRIES ∧
     (execute_query env st).previous_errors.length = st.previous_errors.length + 2) ∧
    (execute_query env2 st2).previous_errors.length ≤
      st2.previous_errors.length + (MAX_RETRIES - st2.retry_count) :=
  ⟨execute_query_all_fail_no_llm env st m hl hx he hr,
   execute_query_prev_bound env2 st2⟩

/-- C2 witness: the amended theorem instantiated with the always-raising
environment and a fresh state. -/
theorem c2_retry_bound_amended_witness :
    ((execute_query envExecBoom { query := "w", sql_query := some "SELECT 2" }).error = none ∧
     (execute_query envExecBoom { query := "w", sql_query := some "SELECT 2" }).query_result
       = ({ query := "w", sql_query := some "SELECT 2" } : AgentState).query_result ∧
     (execute_query envExecBoom { query := "w", sql_query := some "SELECT 2" }).retry_count
       = MAX_RETRIES ∧
     (execute_query envExecBoom
         { query := "w", sql_query := some "SELECT 2" }).previous_errors.length =
       ({ query := "w", sql_query := some "SELECT 2" } : AgentState).previous_errors.length
         + 2) ∧
    (execute_query envTrivial { query := "v" }).previous_errors.length ≤
      ({ query := "v" } : AgentState).previous_errors.length +
        (MAX_RETRIES - ({ query := "v" } : AgentState).retry_count) :=
  c2_retry_bound_amended envExecBoom envTrivial
    { query := "w", sql_query := some "SELECT 2" } { query := "v" }
    (fun _ => "boom") rfl (fun _ => rfl) rfl rfl

/-! ## Claim C4 -/

/-- C4: once the error field is set, each downstream node — validation,
execution (outside its internal recovery path), analysis and visualization —
returns the state itself, so `sql_query`, `query_result`, `insights` and
`visualization_spec` are all unchanged. -/
theorem c4_error_short_circuit (env : Env) (st : AgentState) (e : String)
    (he : st.error = some e) :
    validate_sql st = st ∧ execute_query env st = st ∧
    analyze_results env st = st ∧ create_visualization env st = st := by
  have hs : st.error.isSome := by simp [he]
  refine ⟨?_, execute_query_on_error env st hs, ?_, ?_⟩
  · unfold validate_sql
    simp [hs]
  · unfold analyze_results
    simp [hs]
  · unfold create_visualization
    simp [hs]

/-- C4 witness: a state whose error is set passes through all four nodes
unchanged. -/
theorem c4_error_short_circuit_witness :
    validate_sql { query := "q", error := some "boom" } =
      ({ query := "q", error := some "boom" } : AgentState) ∧
    execute_query envTrivial { query := "q", error := some "boom" } =
      ({ query := "q", error := some "boom" } : AgentState) ∧
    analyze_results envTrivial { query := "q", error := some "boom" } =
      ({ query := "q", error := some "boom" } : AgentState) ∧
    create_visualization envTrivial { query := "q", error := some "boom" } =
      ({ query := "q", error := some "boom" } : AgentState) :=
  c4_error_short_circuit envTrivial { query := "q", error := some "boom" } "boom" rfl

/-! ## Claim C7 -/

/-- C7: when an execution failure routes recovery to the delegated
text-generation call (its error signature matches the temporal-mismatch or
unresolved-column patterns) and that delegated call itself raises, recovery
gives up: after the node finishes, the recorded execution error is exactly
the original one and the failed SQL has not been replaced. -/
theorem c7_recovery_giveup_preserves_error (env : Env) (st : AgentState)
    (msg e : String) (L : LLMService)
    (he : st.error = none) (hr : st.retry_count < MAX_RETRIES)
    (hx : env.bq_execute (st.sql_query.getD "") = .error msg)
    (hc : fix2Cond msg = true ∨ fix3Cond msg = true)
    (hl : env.llm = some L)
    (hg : L.generate_text
        (get_error_recovery_prompt st.query (st.sql_query.getD "") msg
          (env.schema_context false)) = .error e) :
    (execute_query env st).error = some ("Query execution failed: " ++ msg) ∧
    (execute_query env st).sql_query = st.sql_query := by
  rw [execute_query_fail_step env st msg he hr hx]
  rw [recover_giveup env { st with error := some ("Query execution failed: " ++ msg) }
    msg e L hc hl hg]
  rw [execute_query_on_error env _ (by simp)]
  exact ⟨rfl, rfl⟩

/-- C7 witness: a column-not-found execution error with a raising LLM leaves
the original error and SQL in place. -/
theorem c7_recovery_giveup_witness :
    fix3Cond "column foo not found" = true ∧
    (execute_query envGiveUp { query := "q", sql_query := some "SELECT 1" }).error =
      some "Query execution failed: column foo not found" ∧
    (execute_query envGiveUp { query := "q", sql_query := some "SELECT 1" }).sql_query =
      some "SELECT 1" := by
  have h := c7_recovery_giveup_preserves_error envGiveUp
    { query := "q", sql_query := some "SELECT 1" } "column foo not found" "llm down"
    ⟨fun _ => .error "llm down"⟩ rfl (by decide) rfl (Or.inr (by decide)) rfl rfl
  exact ⟨by decide, h.1, h.2⟩

/-! ## Claim C10 -/

/-- C10: the SELECT-presence check tests the raw SQL for the uppercase
substring `SELECT`, so a statement that spells the keyword in any other
casing (and trips no forbidden-keyword rejection first) is rejected with
`Query must be a SELECT statement` even though it is a select statement. -/
theorem c10_select_check_case_sensitive (st : AgentState)
    (he : st.error = none)
    (hsel : strContains (pyUpper (st.sql_query.getD "")) "SELECT" = true)
    (hnup : strContains (st.sql_query.getD "") "SELECT" = false)
    (hforb : findForbidden (st.sql_query.getD "") = none) :
    (validate_sql st).error = some "Query must be a SELECT statement" := by
  unfold validate_sql
  simp [he, hforb, hnup]

/-- C10 witness: `select * from orders` contains the keyword only in lower
case, matches no forbidden keyword, and is rejected as not a SELECT. -/
theorem c10_select_check_case_sensitive_witness :
    strContains (pyUpper "select * from orders") "SELECT" = true ∧
    strContains "select * from orders" "SELECT" = false ∧
    (validate_sql { query := "q", sql_query := some "select * from orders" }).error =
      some "Query must be a SELECT statement" :=
  ⟨by decide, by decide,
    c10_select_check_case_sensitive { query := "q", sql_query := some "select * from orders" }
      rfl (by decide) (by decide) (by decide)⟩

/-! ## Claim C3 -/

/-- An environment whose execution succeeds, with no LLM and a raising
visualization service. -/
def envVizDown : Env :=
  { bq_execute := fun _ => .ok ⟨["c"], [["1"]]⟩
    llm := none
    schema_context := fun _ => "schema"
    format_result := fun _ => "rows"
    viz := fun _ _ _ => .error "viz down" }

/-- C3 counterexample: a state with a query result and no error, put through
`analyze_results` with a text-generation collaborator that raises, comes out
with the error field SET (`Insight generation failed: llm down`) — refuting
the claim that an insight-generation failure never sets the error field. -/
theorem c3_insight_failure_sets_error_cex :
    (analyze_results envInsightDown
        { query := "q", query_result := some ⟨["c"], [["1"]]⟩ }).error =
      some "Insight generation failed: llm down" := by
  decide

/-- C3 amended: a visualization failure indeed never sets the error field
(the handler only clears the spec), but a failure of the text-generation
collaborator inside insight generation DOES set the error field to
`Insight generation failed: ...`, failing the pipeline. -/
theorem c3_optional_stages_amended (env env2 : Env) (st st2 : AgentState)
    (df : DataFrame) (L : LLMService) (e : String)
    (he : st.error = none) (hq : st.query_result = some df) (hl : env.llm = some L)
    (hg : L.generate_text
        (get_insight_generation_prompt st.query (env.format_result df)
          (st.query_metadata.map (fun md => md.qtype))) = .error e) :
    (analyze_results env st).error = some ("Insight generation failed: " ++ e) ∧
    (create_visualization env2 st2).error = st2.error :=
  ⟨analyze_results_llm_failure env st df L e he hq hl hg,
   create_visualization_error_eq env2 st2⟩

/-- C3 witness: the amended theorem instantiated with a raising insight LLM
and a raising visualization service. -/
theorem c3_optional_stages_amended_witness :
    (analyze_results envInsightDown
        { query := "w", query_result := some ⟨["c"], [["1"]]⟩ }).error =
      some ("Insight generation failed: " ++ "llm down") ∧
    (create_visualization envVizDown
        { query := "w", query_result := some ⟨["c"], [["1"]]⟩ }).error =
      ({ query := "w", query_result := some ⟨["c"], [["1"]]⟩ } : AgentState).error :=
  c3_optional_stages_amended envInsightDown envVizDown
    { query := "w", query_result := some ⟨["c"], [["1"]]⟩ }
    { query := "w", query_result := some ⟨["c"], [["1"]]⟩ }
    ⟨["c"], [["1"]]⟩ ⟨fun _ => .error "llm down"⟩ "llm down" rfl rfl rfl rfl

/-! ## Claim C9 -/

/-- The router decision table as the amended claim reads it: one level per
track in fixed precedence order, each level triggered by its keyword set or —
for the customer, product and temporal-or-sales levels — by a matching
pre-existing classification; the geographic level has no classification
trigger. -/
def routeLevels (st : AgentState) : List (String × Bool) :=
  let query := pyLower st.query
  let qt :=
    match st.query_metadata with
    | some md => md.qtype
    | none => "general"
  [("geographic", anyKeyword geo_keywords query),
   ("customer_segmentation",
     anyKeyword customer_keywords query || qt = "customer_analysis"),
   ("product_performance",
     anyKeyword product_keywords query || qt = "product_analysis"),
   ("sales_trends",
     anyKeyword (temporal_keywords ++ sales_keywords) query
       || qt = "temporal" || qt = "sales_analysis")]

/-- First triggered level wins; no trigger falls back to the general track. -/
def routeFirstMatch (st : AgentState) : String :=
  (((routeLevels st).find? (fun p => p.2)).map (fun p => p.1)).getD "general"

/-- C9 counterexample: a request whose existing classification names the
product track but whose text contains a customer keyword is routed to
`customer_segmentation` — the earlier keyword level wins over the
classification, refuting the claim that an existing specialized
classification takes precedence over pure keyword matching. -/
theorem c9_classification_no_override_cex :
    ({ query := "show customer counts",
        query_metadata := some ⟨"product_analysis", "medium", "show customer counts"⟩ } :
          AgentState).query_metadata.map (fun md => md.qtype) = some "product_analysis" ∧
    route_to_agent
        { query := "show customer counts",
          query_metadata := some ⟨"product_analysis", "medium", "show customer counts"⟩ } =
      "customer_segmentation" := by
  decide

/-- C9 amended: the router checks the keyword sets in the fixed order
geographic, customer, product, temporal-or-sales with the first match
winning and general as the default; an existing classification naming a
specialized track does not override keyword matching but acts as an extra
trigger at its own level (and the geographic level has none), so an
earlier level's keyword match beats a later level's classification. -/
theorem c9_router_precedence_amended (st : AgentState) :
    route_to_agent st = routeFirstMatch st := by
  unfold route_to_agent routeFirstMatch routeLevels
  cases hmd : st.query_metadata with
  | none =>
    cases h1 : anyKeyword geo_keywords (pyLower st.query) <;>
    cases h2 : anyKeyword customer_keywords (pyLower st.query) <;>
    cases h3 : anyKeyword product_keywords (pyLower st.query) <;>
    cases h4 : anyKeyword (temporal_keywords ++ sales_keywords) (pyLower st.query) <;>
      simp_all [List.find?]
  | some md =>
    cases h1 : anyKeyword geo_keywords (pyLower st.query) <;>
    cases h2 : anyKeyword customer_keywords (pyLower st.query) <;>
    cases h3 : anyKeyword product_keywords (pyLower st.query) <;>
    cases h4 : anyKeyword (temporal_keywords ++ sales_keywords) (pyLower st.query) <;>
    by_cases hq1 : md.qtype = "customer_analysis" <;>
    by_cases hq2 : md.qtype = "product_analysis" <;>
    by_cases hq3 : md.qtype = "temporal" <;>
    by_cases hq4 : md.qtype = "sales_analysis" <;>
      simp_all [List.find?]

/-! ## Claim C8 -/

/-- When the error signature selects the delegated path and the LLM call
succeeds, the corrected SQL is the fence-stripped returned text and the
error is cleared. -/
theorem recover_llm_ok (env : Env) (st : AgentState) (msg txt : String) (L : LLMService)
    (hc : fix2Cond msg = true ∨ fix3Cond msg = true)
    (hl : env.llm = some L)
    (hok : L.generate_text
        (get_error_recovery_prompt st.query (st.sql_query.getD "") msg
          (env.schema_context false)) = .ok txt) :
    _recover_from_error env st msg =
      { st with
          previous_errors := st.previous_errors ++ [msg],
          sql_query := some (cleanSqlFences txt),
          error := none } := by
  unfold _recover_from_error
  dsimp only
  simp only [hl]
  by_cases h2 : fix2Cond msg
  · simp only [h2, if_true, hok]
  · rcases hc with hc | hc
    · exact absurd hc h2
    · simp only [h2, if_false, hc, if_true, hok]
      split <;> rfl

/-- When the error message matches no pattern at all, no delegated call is
consulted: the failed SQL is reinstalled verbatim and the error cleared. -/
theorem recover_no_pattern (env : Env) (st : AgentState) (msg : String)
    (h1 : fix1Cond msg (st.sql_query.getD "") = false)
    (h2 : fix2Cond msg = false) (h3 : fix3Cond msg = false) :
    _recover_from_error env st msg =
      { st with
          previous_errors := st.previous_errors ++ [msg],
          sql_query := some (st.sql_query.getD ""),
          error := none } := by
  unfold _recover_from_error
  dsimp only
  simp only [h1, h2, h3, Bool.false_eq_true, if_false]

/-- C8 counterexample: the execution error `boom` matches neither the fast
`DATEDIFF` rule nor any other pattern; recovery performs NO delegated
text-generation call — even though the LLM is available and would return
`CORRECTED` for every prompt, the state keeps the original failed SQL (and
clears the error for a blind retry) — refuting the claim that every
unmatched error falls back to the delegated call. -/
theorem c8_no_fallback_for_unmatched_error_cex :
    fix1Cond "boom" "SELECT x FROM t" = false ∧
    fix2Cond "boom" = false ∧
    fix3Cond "boom" = false ∧
    (_recover_from_error
        { bq_execute := fun _ => .error "boom"
          llm := some ⟨fun _ => .ok "CORRECTED"⟩
          schema_context := fun _ => "schema"
          format_result := fun _ => "rows"
          viz := fun _ _ _ => .ok none }
        { query := "q", sql_query := some "SELECT x FROM t" } "boom").sql_query =
      some "SELECT x FROM t" ∧
    cleanSqlFences "CORRECTED" = "CORRECTED" ∧
    ("SELECT x FROM t" : String) ≠ "CORRECTED" := by
  refine ⟨by decide, by decide, by decide, ?_, by decide, by decide⟩
  rw [recover_no_pattern _ _ _ (by decide) (by decide) (by decide)]
  rfl

/-- C8 amended: the delegated fallback fires exactly for the
temporal-type-mismatch signature (`TIMESTAMP` and `DATE` both present, or
`DATE_DIFF does not support`) and the unresolved-column signature
(`not found` or `column`, case-insensitively): in that case the call carries
the prompt built from the original request, the failed SQL, the error text
and the schema context, and the returned text is installed after stripping
any code-fence wrapping, with the error cleared.  For an error matching no
pattern, no delegated call is made: the failed SQL is reinstalled verbatim
and the error cleared for a blind retry. -/
theorem c8_fallback_amended (env env2 : Env) (st st2 : AgentState)
    (msg msg2 txt : String) (L : LLMService)
    (hl : env.llm = some L)
    (hc : fix2Cond msg = true ∨ fix3Cond msg = true)
    (hok : L.generate_text
        (get_error_recovery_prompt st.query (st.sql_query.getD "") msg
          (env.schema_context false)) = .ok txt)
    (h1 : fix1Cond msg2 (st2.sql_query.getD "") = false)
    (h2 : fix2Cond msg2 = false) (h3 : fix3Cond msg2 = false) :
    (_recover_from_error env st msg).sql_query = some (cleanSqlFences txt) ∧
    (_recover_from_error env st msg).error = none ∧
    (_recover_from_error env2 st2 msg2).sql_query = some (st2.sql_query.getD "") ∧
    (_recover_from_error env2 st2 msg2).error = none := by
  rw [recover_llm_ok env st msg txt L hc hl hok, recover_no_pattern env2 st2 msg2 h1 h2 h3]
  exact ⟨rfl, rfl, rfl, rfl⟩

/-- An environment whose LLM returns a fenced SQL block for every prompt. -/
def envRecovery : Env :=
  { bq_execute := fun _ => .error "column foo not found"
    llm := some ⟨fun _ => .ok "```sql\nSELECT 2\n```"⟩
    schema_context := fun _ => "schema"
    format_result := fun _ => "rows"
    viz := fun _ _ _ => .ok none }

/-- C8 witness: a column-not-found error goes through the delegated call and
installs the fence-stripped LLM output; the unmatched `boom` error keeps the
failed SQL. -/
theorem c8_fallback_amended_witness :
    fix3Cond "column foo not found" = true ∧
    (_recover_from_error envRecovery
        { query := "w", sql_query := some "SELECT 1" } "column foo not found").sql_query =
      some (cleanSqlFences "```sql\nSELECT 2\n```") ∧
    (_recover_from_error envRecovery
        { query := "w", sql_query := some "SELECT 1" } "column foo not found").error = none ∧
    (_recover_from_error envRecovery
        { query := "w", sql_query := some "SELECT 1" } "boom").sql_query = some "SELECT 1" ∧
    (_recover_from_error envRecovery
        { query := "w", sql_query := some "SELECT 1" } "boom").error = none := by
  have h := c8_fallback_amended envRecovery envRecovery
    { query := "w", sql_query := some "SELECT 1" }
    { query := "w", sql_query := some "SELECT 1" }
    "column foo not found" "boom" "```sql\nSELECT 2\n```"
    ⟨fun _ => .ok "```sql\nSELECT 2\n```"⟩ rfl (Or.inr (by decide)) rfl
    (by decide) (by decide) (by decide)
  exact ⟨by decide, h.1, h.2.1, h.2.2.1, h.2.2.2⟩

/-! ## Helper lemmas: the cache dict and heap -/

/-- A binding whose key differs is transparent to `dictGet`. -/
theorem dictGet_cons_ne (p : CacheKey × CacheEntry) (t : List (CacheKey × CacheEntry))
    (k : CacheKey) (hp : ¬p.1 = k) : dictGet (p :: t) k = dictGet t k := by
  simp [dictGet, List.find?, hp]

/-- Dict read-after-write: looking up the written key returns the new value. -/
theorem dictGet_set_self (m : List (CacheKey × CacheEntry)) (k : CacheKey)
    (v : CacheEntry) : dictGet (dictSet m k v) k = some v := by
  induction m with
  | nil => simp [dictGet, dictSet, List.find?]
  | cons p t ih =>
    by_cases hp : p.1 = k
    · simp [dictGet, dictSet, List.any_cons, hp, List.find?]
    · by_cases ha : t.any (fun x => x.1 = k)
      · have hset : dictSet (p :: t) k v =
            p :: t.map (fun x => if x.1 = k then (k, v) else x) := by
          simp [dictSet, List.any_cons, hp, ha]
        have htail : dictSet t k v = t.map (fun x => if x.1 = k then (k, v) else x) := by
          simp [dictSet, ha]
        rw [hset, dictGet_cons_ne p _ k hp, ← htail, ih]
      · have hset : dictSet (p :: t) k v = p :: (t ++ [(k, v)]) := by
          simp [dictSet, List.any_cons, hp, ha]
        have htail : dictSet t k v = t ++ [(k, v)] := by
          simp [dictSet, ha]
        rw [hset, dictGet_cons_ne p _ k hp, ← htail, ih]

/-- Dict read-after-delete: the deleted key is gone. -/
theorem dictGet_del_self (m : List (CacheKey × CacheEntry)) (k : CacheKey) :
    dictGet (dictDel m k) k = none := by
  induction m with
  | nil => simp [dictGet, dictDel]
  | cons p t ih =>
    by_cases hp : p.1 = k
    · simpa [dictDel, hp] using ih
    · rw [show dictDel (p :: t) k = p :: dictDel t k by simp [dictDel, hp],
        dictGet_cons_ne p _ k hp]
      exact ih

/-- The object allocated by `copy` holds the copied value. -/
theorem Heap.valueAt_copy_new (h : Heap) (i : Nat) :
    (h.copy i).1.valueAt h.objs.length = h.valueAt i := by
  simp only [Heap.copy, Heap.valueAt]
  rw [List.getD_append_right _ _ _ _ le_rfl]
  simp

/-- Objects below the allocation point are untouched by `copy`. -/
theorem Heap.valueAt_copy_old (h : Heap) (i j : Nat) (hj : j < h.objs.length) :
    (h.copy i).1.valueAt j = h.valueAt j := by
  simp only [Heap.copy, Heap.valueAt]
  rw [List.getD_append _ _ _ _ hj]

/-- Mutation at one id leaves every other id's value unchanged. -/
theorem Heap.valueAt_mutate_ne (h : Heap) (i j : Nat) (f : DataFrame → DataFrame)
    (hij : i ≠ j) : (h.mutate i f).valueAt j = h.valueAt j := by
  simp [Heap.mutate, Heap.valueAt, List.getD_eq_getElem?_getD, List.getElem?_set_ne hij]

/-- Mutation preserves the heap size. -/
theorem Heap.length_mutate (h : Heap) (i : Nat) (f : DataFrame → DataFrame) :
    (h.mutate i f).objs.length = h.objs.length := by
  simp [Heap.mutate]

/-! ## Claim C5 -/

/-- A one-entry cache whose entry expires exactly at instant 5. -/
def cacheBoundary : CacheService :=
  { query_cache := [((normalizeQuery "SELECT 1", []), ⟨0, 5, 0, "SELECT 1"⟩)]
    ttl_seconds := 3600 }

/-- C5 counterexample: at `now = expires_at` (instant 5) the stats report the
entry as expired, yet no stored entry has an expiry time that has passed
(`expires_at < now` holds for none), and a lookup at that same instant still
returns the entry — so `expired_entries` does not count exactly the entries
whose expiry time has passed. -/
theorem c5_stats_boundary_cex :
    (get_cache_stats cacheBoundary 5).2.2 = 1 ∧
    (cacheBoundary.query_cache.filter (fun p => p.2.expires_at < 5)).length = 0 ∧
    (get_cached_result cacheBoundary ⟨[⟨["c"], [["1"]]⟩]⟩ 5 "SELECT 1" []).1.isSome
      = true := by
  decide

/-- C5 amended: a stored entry is returned by no lookup once `now >
expires_at`, and such a lookup deletes it (lazy eviction); a lookup at any
instant up to and including `expires_at` (in particular before the TTL
elapses) returns a copy of the stored table; and `expired_entries` counts
exactly the stored entries with `expires_at ≤ now` — entries are counted as
expired already at the instant `now = expires_at`, one instant before
lookups stop returning them. -/
theorem c5_ttl_amended (c c2 : CacheService) (h : Heap) (now now2 now3 : Nat)
    (q : String) (ps : CacheParams) (e : CacheEntry)
    (hfind : dictGet c.query_cache (_generate_cache_key q ps) = some e) :
    (e.expires_at < now →
      (get_cached_result c h now q ps).1 = none ∧
      dictGet ((get_cached_result c h now q ps).2.1).query_cache
        (_generate_cache_key q ps) = none) ∧
    (now2 ≤ e.expires_at →
      (get_cached_result c h now2 q ps).1 = some h.objs.length ∧
      ((get_cached_result c h now2 q ps).2.2).valueAt h.objs.length =
        h.valueAt e.result) ∧
    (get_cache_stats c2 now3).2.2 =
      (c2.query_cache.filter (fun p => p.2.expires_at ≤ now3)).length := by
  refine ⟨?_, ?_, ?_⟩
  · intro hexp
    unfold get_cached_result
    simp only [hfind, hexp, if_true, gt_iff_lt]
    exact ⟨trivial, dictGet_del_self c.query_cache (_generate_cache_key q ps)⟩
  · intro hfresh
    unfold get_cached_result
    simp only [hfind, gt_iff_lt, Nat.not_lt.mpr hfresh, if_false]
    exact ⟨rfl, Heap.valueAt_copy_new h e.result⟩
  · have hsplit := List.length_eq_length_filter_add
      (l := c2.query_cache) (fun p => p.2.expires_at > now3)
    have hcong : c2.query_cache.filter (fun p => !(decide (p.2.expires_at > now3))) =
        c2.query_cache.filter (fun p => p.2.expires_at ≤ now3) := by
      apply List.filter_congr
      intro x _
      simp [← decide_not, Nat.not_lt]
    unfold get_cache_stats
    simp only at hsplit ⊢
    rw [← hcong]
    omega

/-- C5 witness: the amended theorem at the boundary cache, with an expired
lookup at instant 6, a fresh lookup at instant 4, and the stats formula at
instant 5. -/
theorem c5_ttl_amended_witness :
    ((5 : Nat) < 6 →
      (get_cached_result cacheBoundary ⟨[⟨["c"], [["1"]]⟩]⟩ 6 "SELECT 1" []).1 = none ∧
      dictGet ((get_cached_result cacheBoundary ⟨[⟨["c"], [["1"]]⟩]⟩ 6
          "SELECT 1" []).2.1).query_cache (_generate_cache_key "SELECT 1" []) = none) ∧
    ((4 : Nat) ≤ 5 →
      (get_cached_result cacheBoundary ⟨[⟨["c"], [["1"]]⟩]⟩ 4 "SELECT 1" []).1 =
        some (⟨[⟨["c"], [["1"]]⟩]⟩ : Heap).objs.length ∧
      ((get_cached_result cacheBoundary ⟨[⟨["c"], [["1"]]⟩]⟩ 4
          "SELECT 1" []).2.2).valueAt (⟨[⟨["c"], [["1"]]⟩]⟩ : Heap).objs.length =
        (⟨[⟨["c"], [["1"]]⟩]⟩ : Heap).valueAt 0) ∧
    (get_cache_stats cacheBoundary 5).2.2 =
      (cacheBoundary.query_cache.filter (fun p => p.2.expires_at ≤ 5)).length :=
  c5_ttl_amended cacheBoundary cacheBoundary ⟨[⟨["c"], [["1"]]⟩]⟩ 6 4 5 "SELECT 1" []
    ⟨0, 5, 0, "SELECT 1"⟩ (by decide)

/-! ## Claim C6 -/

/-- ASCII uppercasing maps no character into or out of the whitespace set. -/
theorem isWsPy_pyUpperChar (c : Char) : isWsPy (pyUpperChar c) = isWsPy c := by
  unfold pyUpperChar
  split <;> simp_all [isWsPy]

/-- `str.upper` commutes with the whitespace splitter (word by word). -/
theorem splitWsGo_map_upper (l acc : List Char) :
    splitWsGo (acc.map pyUpperChar) (l.map pyUpperChar) =
      (splitWsGo acc l).map (List.map pyUpperChar) := by
  induction l generalizing acc with
  | nil =>
    cases acc <;> simp [splitWsGo]
  | cons c rest ih =>
    simp only [List.map_cons, splitWsGo, isWsPy_pyUpperChar]
    by_cases hw : isWsPy c
    · have htail := ih []
      simp only [List.map_nil] at htail
      simp only [hw, if_true]
      cases acc <;> simp_all [List.map_reverse]
    · simpa only [hw, if_false, List.map_cons] using ih (c :: acc)

/-- `query.upper().split()` equals the uppercased words of `query.split()`. -/
theorem splitWs_map_upper (l : List Char) :
    splitWs (l.map pyUpperChar) = (splitWs l).map (List.map pyUpperChar) :=
  splitWsGo_map_upper l []

/-- Two queries with the same whitespace-separated words up to letter case
normalize to the same cache-key material. -/
theorem normalizeQuery_congr (q q2 : String)
    (hw : (splitWs q.data).map (List.map pyUpperChar) =
      (splitWs q2.data).map (List.map pyUpperChar)) :
    normalizeQuery q = normalizeQuery q2 := by
  unfold normalizeQuery
  rw [splitWs_map_upper, splitWs_map_upper, hw]

/-- C6: round-trip with normalization and copy isolation.  After
`cache_result(q, r)` at time `now`, a lookup with any query `q2` that has the
same whitespace-separated words as `q` up to letter case, the same key
parameters, and a time within the TTL window, returns a FRESH table object
(the id just past the stored copy) whose value equals the value of `r` at
put time — even if the caller mutated `r` (by `f`) after the put; and
mutating the returned object (by `g`) leaves the stored copy's value equal
to the put-time value of `r`. -/
theorem c6_cache_roundtrip_normalized (c : CacheService) (h : Heap) (now now2 : Nat)
    (q q2 : String) (rid : Nat) (ps : CacheParams) (f g : DataFrame → DataFrame)
    (hw : (splitWs q.data).map (List.map pyUpperChar) =
      (splitWs q2.data).map (List.map pyUpperChar))
    (hrid : rid < h.objs.length)
    (ht : now2 ≤ now + c.ttl_seconds) :
    (get_cached_result (cache_result c h now q rid ps).1
        ((cache_result c h now q rid ps).2.mutate rid f) now2 q2 ps).1 =
      some (h.objs.length + 1) ∧
    ((get_cached_result (cache_result c h now q rid ps).1
        ((cache_result c h now q rid ps).2.mutate rid f) now2 q2 ps).2.2).valueAt
        (h.objs.length + 1) = h.valueAt rid ∧
    (((get_cached_result (cache_result c h now q rid ps).1
        ((cache_result c h now q rid ps).2.mutate rid f) now2 q2 ps).2.2).mutate
        (h.objs.length + 1) g).valueAt h.objs.length = h.valueAt rid := by
  have hkey : _generate_cache_key q2 ps = _generate_cache_key q ps := by
    unfold _generate_cache_key
    rw [normalizeQuery_congr q2 q hw.symm]
  have hfind : dictGet (cache_result c h now q rid ps).1.query_cache
      (_generate_cache_key q2 ps) =
      some ⟨h.objs.length, now + c.ttl_seconds, now, q⟩ := by
    rw [hkey]
    exact dictGet_set_self c.query_cache (_generate_cache_key q ps) _
  have hmv : ((cache_result c h now q rid ps).2.mutate rid f).valueAt h.objs.length =
      h.valueAt rid := by
    rw [Heap.valueAt_mutate_ne _ rid h.objs.length f (Nat.ne_of_lt hrid)]
    exact Heap.valueAt_copy_new h rid
  have hml : ((cache_result c h now q rid ps).2.mutate rid f).objs.length =
      h.objs.length + 1 := by
    rw [Heap.length_mutate]
    simp [cache_result, Heap.copy]
  unfold get_cached_result
  simp only [hfind, gt_iff_lt, Nat.not_lt.mpr ht, if_false]
  refine ⟨by rw [Heap.copy, hml], ?_, ?_⟩
  · rw [show ((cache_result c h now q rid ps).2.mutate rid f).copy h.objs.length =
        ((((cache_result c h now q rid ps).2.mutate rid f).copy h.objs.length).1,
          ((cache_result c h now q rid ps).2.mutate rid f).objs.length) from rfl]
    rw [← hml]
    rw [Heap.valueAt_copy_new]
    exact hmv
  · rw [Heap.valueAt_mutate_ne _ _ _ g (by omega)]
    rw [Heap.valueAt_copy_old _ _ _ (by rw [hml]; omega)]
    exact hmv

/-- C6 witness: storing table 0 under `select  1` and reading it back as
`SELECT 1` with the same row-limit parameter returns a fresh copy with the
original value, immune to mutation on either side. -/
theorem c6_cache_roundtrip_normalized_witness :
    (get_cached_result (cache_result ⟨[], 3600⟩ ⟨[⟨["c"], [["1"]]⟩]⟩ 0 "select  1" 0
          [("limit_rows", 10)]).1
        ((cache_result ⟨[], 3600⟩ ⟨[⟨["c"], [["1"]]⟩]⟩ 0 "select  1" 0
          [("limit_rows", 10)]).2.mutate 0 (fun _ => ⟨[], []⟩)) 10 "SELECT 1"
        [("limit_rows", 10)]).1 = some ((⟨[⟨["c"], [["1"]]⟩]⟩ : Heap).objs.length + 1) ∧
    ((get_cached_result (cache_result ⟨[], 3600⟩ ⟨[⟨["c"], [["1"]]⟩]⟩ 0 "select  1" 0
          [("limit_rows", 10)]).1
        ((cache_result ⟨[], 3600⟩ ⟨[⟨["c"], [["1"]]⟩]⟩ 0 "select  1" 0
          [("limit_rows", 10)]).2.mutate 0 (fun _ => ⟨[], []⟩)) 10 "SELECT 1"
        [("limit_rows", 10)]).2.2).valueAt ((⟨[⟨["c"], [["1"]]⟩]⟩ : Heap).objs.length + 1) =
      (⟨[⟨["c"], [["1"]]⟩]⟩ : Heap).valueAt 0 ∧
    (((get_cached_result (cache_result ⟨[], 3600⟩ ⟨[⟨["c"], [["1"]]⟩]⟩ 0 "select  1" 0
          [("limit_rows", 10)]).1
        ((cache_result ⟨[], 3600⟩ ⟨[⟨["c"], [["1"]]⟩]⟩ 0 "select  1" 0
          [("limit_rows", 10)]).2.mutate 0 (fun _ => ⟨[], []⟩)) 10 "SELECT 1"
        [("limit_rows", 10)]).2.2).mutate ((⟨[⟨["c"], [["1"]]⟩]⟩ : Heap).objs.length + 1)
        (fun _ => ⟨["z"], []⟩)).valueAt (⟨[⟨["c"], [["1"]]⟩]⟩ : Heap).objs.length =
      (⟨[⟨["c"], [["1"]]⟩]⟩ : Heap).valueAt 0 :=
  c6_cache_roundtrip_normalized ⟨[], 3600⟩ ⟨[⟨["c"], [["1"]]⟩]⟩ 0 10 "select  1" "SELECT 1"
    0 [("limit_rows", 10)] (fun _ => ⟨[], []⟩) (fun _ => ⟨["z"], []⟩)
    (by decide) (by decide) (by decide)

end TheLook
